import Mathlib

/-!
Verification of the slate clipboard replication engine.

This file gives a shallow embedding of the replication core of the
repository (src/db.rs, src/control_plane.rs, src/http_server.rs) and
proves or refutes the specification claims about it.

Modelling conventions:
* SQLite tables become Lean lists of row structures; a primary-key
  violation on INSERT is modelled as the single storage error
  `RusqliteError.constraintViolation` (the only failure mode the claims
  exercise).
* The Rust `Clock` type (`HashMap<String, u64>`) becomes an association
  list `List (String × Nat)`; map lookup is first-match lookup.
* Fresh ULIDs (`Ulid::new()`) are passed in as explicit `String`
  parameters, exactly as `save_text`/`save_image` receive their
  `timestamp` argument in the source.
* Stateful database methods become state-passing functions
  `DB → ... → result × DB`.
-/

namespace Slate

/-- Mirrors `SerializableImage` in db.rs: width, height and raw bytes. -/
structure SerializableImage where
  width : Nat
  height : Nat
  bytes : List Nat
  deriving DecidableEq, Repr

/-- Mirrors `enum ClipboardEntry { Image(SerializableImage), Text(String) }` in db.rs. -/
inductive ClipboardEntry where
  | Image (i : SerializableImage)
  | Text (t : String)
  deriving DecidableEq, Repr

/-- One row of the `clipboard` table of db.rs: key TEXT PRIMARY KEY plus the
text and image columns, of which exactly one side is populated by the writers. -/
structure ClipRow where
  key : String
  text_data : Option String
  width : Option Nat
  height : Option Nat
  image_content : Option (List Nat)
  deriving DecidableEq, Repr

/-- One row of the `clock` table of db.rs: key TEXT PRIMARY KEY, self BOOLEAN, time INTEGER. -/
structure ClockRow where
  key : String
  self : Bool
  time : Nat
  deriving DecidableEq, Repr

/-- The database state owned by the Store: the `clipboard` and `clock` tables.
The `files` table is out of core and not touched by any claim. -/
structure DB where
  clipboard : List ClipRow
  clock : List ClockRow
  deriving DecidableEq, Repr

/-- The in-memory clock type, `pub type Clock = HashMap<String, u64>` in db.rs,
modelled as an association list with distinct keys. -/
abbrev Clock := List (String × Nat)

/-- The single storage error the claims exercise: a UNIQUE / primary-key
violation raised by SQLite on a duplicate INSERT. -/
inductive RusqliteError where
  | constraintViolation
  deriving DecidableEq, Repr

/-- First-match lookup in a clock map, mirroring `HashMap::get`. -/
def lookupClock : Clock → String → Option Nat
  | [], _ => none
  | p :: rest, k => if p.1 == k then some p.2 else lookupClock rest k

/-- Mirrors db.rs `inc_self_counter`:
`UPDATE clock SET time = time + 1 WHERE self = TRUE`. -/
def incRows (rows : List ClockRow) : List ClockRow :=
  rows.map (fun r => if r.self then { r with time := r.time + 1 } else r)

def inc_self_counter (db : DB) : DB :=
  { db with clock := incRows db.clock }

/-- The clipboard row written by db.rs `save_text`. -/
def textRow (k t : String) : ClipRow :=
  ⟨k, some t, none, none, none⟩

/-- The clipboard row written by db.rs `save_image`. -/
def imageRow (k : String) (i : SerializableImage) : ClipRow :=
  ⟨k, none, some i.width, some i.height, some i.bytes⟩

/-- True when the clipboard table already holds a row with this key, in which
case an INSERT raises a primary-key constraint violation. -/
def isDup (db : DB) (k : String) : Bool :=
  db.clipboard.any (fun r => r.key == k)

/-- Mirrors db.rs `save_text` (lines 200-213): when `local`, first runs
`inc_self_counter` (a separate committed statement, no transaction), then
executes `INSERT INTO clipboard (key, text_data) VALUES (?1, ?2)`, which fails
with a constraint violation when the key is already present. -/
def save_text (db : DB) (text : String) (timestamp : String) (isLocal : Bool) :
    Except RusqliteError Nat × DB :=
  let db1 := if isLocal then inc_self_counter db else db
  if isDup db1 timestamp then
    (Except.error RusqliteError.constraintViolation, db1)
  else
    (Except.ok 1, { db1 with clipboard := db1.clipboard ++ [textRow timestamp text] })

/-- Mirrors db.rs `save_image` (same shape as `save_text`, image columns). -/
def save_image (db : DB) (image : SerializableImage) (timestamp : String) (isLocal : Bool) :
    Except RusqliteError Nat × DB :=
  let db1 := if isLocal then inc_self_counter db else db
  if isDup db1 timestamp then
    (Except.error RusqliteError.constraintViolation, db1)
  else
    (Except.ok 1, { db1 with clipboard := db1.clipboard ++ [imageRow timestamp image] })

/-- The `DBCommand::CopyData` dispatch of the Store receive loop: an image goes
to `save_image`, a text to `save_text`, with the carried timestamp and local flag. -/
def copyData (db : DB) (entry : ClipboardEntry) (timestamp : String) (isLocal : Bool) :
    Except RusqliteError Nat × DB :=
  match entry with
  | ClipboardEntry.Image i => save_image db i timestamp isLocal
  | ClipboardEntry.Text t => save_text db t timestamp isLocal

/-- One VALUES row of the db.rs `sync_clock` upsert:
`INSERT INTO clock (key, self, time) VALUES (?, FALSE, ?)
 ON CONFLICT(key) DO UPDATE SET time = excluded.time WHERE self = FALSE`.
On conflict the existing row is updated to the incoming time only when its
`self` column is FALSE; otherwise a fresh row is inserted with self = FALSE. -/
def upsertClock (rows : List ClockRow) (k : String) (v : Nat) : List ClockRow :=
  if rows.any (fun r => r.key == k) then
    rows.map (fun r => if r.key == k && !r.self then { r with time := v } else r)
  else
    rows ++ [⟨k, false, v⟩]

/-- Mirrors db.rs `sync_clock` (lines 82-107): early-returns on an empty map,
otherwise upserts every (host, counter) pair of the incoming map. Note that
the update sets `time = excluded.time`, an overwrite, not a max. -/
def sync_clock (db : DB) (clock_map : Clock) : DB :=
  if clock_map.isEmpty then db
  else { db with clock := clock_map.foldl (fun rows p => upsertClock rows p.1 p.2) db.clock }

/-- Mirrors db.rs `load_clock`: `SELECT key, time FROM clock` into a map. -/
def load_clock (db : DB) : Clock :=
  db.clock.map (fun r => (r.key, r.time))

/-- Mirrors db.rs `insert_self` (lines 314-322):
`INSERT INTO clock (key, self, time) VALUES (?1, TRUE, 0) ON CONFLICT(key) DO NOTHING`. -/
def insert_self (db : DB) (host_name : String) : DB :=
  if db.clock.any (fun r => r.key == host_name) then db
  else { db with clock := db.clock ++ [⟨host_name, true, 0⟩] }

/-- The self rows of a clock table. -/
def selfRows (rows : List ClockRow) : List ClockRow :=
  rows.filter (fun r => r.self)

/-- Number of rows marked self. -/
def selfRowCount (db : DB) : Nat :=
  (selfRows db.clock).length

/-- Sum of the counters of the rows marked self; with the unique-self-row
invariant this is the value of the self counter. -/
def selfCounter (db : DB) : Nat :=
  ((selfRows db.clock).map (fun r => r.time)).sum

/-! Control plane (src/control_plane.rs). -/

/-- Mirrors `const TTL: u64 = 1` in control_plane.rs. -/
def TTL : Nat := 1

/-- Mirrors `const MAX_PER_ROUND: u64 = 5` in control_plane.rs. -/
def MAX_PER_ROUND : Nat := 5

/-- Mirrors `struct PeerInfo` in control_plane.rs. -/
structure PeerInfo where
  HostName : String
  TailscaleIPs : List String
  Online : Bool
  deriving DecidableEq, Repr

/-- Mirrors `struct Gossip { clock, entry, ttl }` in control_plane.rs. -/
structure Gossip where
  clock : Clock
  entry : ClipboardEntry
  ttl : Nat
  deriving DecidableEq, Repr

/-- Mirrors the free function `is_outdated` in control_plane.rs (lines 41-48):
some incoming pair either names a host unknown to the local clock (the
`None => true` arm) or carries a strictly larger counter. -/
def is_outdated (clock incoming : Clock) : Bool :=
  incoming.any (fun p =>
    match lookupClock clock p.1 with
    | some local_val => decide (local_val < p.2)
    | none => true)

/-- Written from the words of the spec, for comparison with `is_outdated`:
"returns true iff there exists a host h such that remote[h] > local.get(h, 0)",
that is, a host missing locally counts as local counter 0. -/
def spec_is_outdated (clock incoming : Clock) : Bool :=
  incoming.any (fun p => decide ((lookupClock clock p.1).getD 0 < p.2))

/-- The send loop of `Node::gossip` (control_plane.rs lines 129-146), as the
list of peers actually sent to: offline peers are skipped; after each send,
`sent` is incremented and the loop breaks once `sent > neighbor_count`, so
the breaking send has itself already happened. -/
def gossipLoop (cap : Nat) : List PeerInfo → Nat → List PeerInfo
  | [], _ => []
  | n :: rest, sent =>
    if !n.Online then gossipLoop cap rest sent
    else if sent + 1 > cap then [n]
    else n :: gossipLoop cap rest (sent + 1)

/-- Peers messaged by one `Node::gossip` round with fan-out bound `cap`. -/
def gossipTargets (neighbors : List PeerInfo) (cap : Nat) : List PeerInfo :=
  gossipLoop cap neighbors 0

/-- One outbound `POST /gossip`: target peer and request body. -/
abbrev GossipMsg := PeerInfo × Gossip

/-- HashMap insert on the association-list clock: replace the value under an
existing key, otherwise append the pair. -/
def insertClock (m : Clock) (k : String) (v : Nat) : Clock :=
  if m.any (fun p => p.1 == k) then
    m.map (fun p => if p.1 == k then (k, v) else p)
  else m ++ [(k, v)]

/-- One iteration of the clock-merging loop of `Node::update_values`
(control_plane.rs lines 221-233): `new_value` keeps the larger of the existing
and the incoming counter (the incoming one when the host is new), and is
stored back into the map. -/
def mergeStep (u : Clock) (p : String × Nat) : Clock :=
  match lookupClock u p.1 with
  | some old_value => insertClock u p.1 (if old_value > p.2 then old_value else p.2)
  | none => insertClock u p.1 p.2

/-- The clock-merging loop of `Node::update_values`, over all incoming pairs. -/
def merge_clocks (updating incoming : Clock) : Clock :=
  incoming.foldl mergeStep updating

/-- Mirrors `Node::update_values` (control_plane.rs lines 183-236): writes every
pulled (entry, key) pair as a replicated insert (responses, including duplicate
key errors, are read and discarded), then loads the local clock, max-merges the
incoming clock into it and stores the result through `SaveClock`/`sync_clock`. -/
def update_values (db : DB) (incoming_updates : List (ClipboardEntry × String))
    (incoming_clock : Clock) : DB :=
  let db1 := incoming_updates.foldl (fun d u => (copyData d u.1 u.2 false).2) db
  sync_clock db1 (merge_clocks (load_clock db1) incoming_clock)

/-- Result of the `ControlCommand::Transmit` handler: the database afterwards,
whether the handler replied OK, and the outbound gossip messages issued. -/
structure TransmitResult where
  db : DB
  ok : Bool
  msgs : List GossipMsg
  deriving DecidableEq, Repr

/-- Mirrors the `ControlCommand::Transmit` arm of `Node::listen`
(control_plane.rs lines 324-357). The entry is saved via `CopyData` with a
fresh ULID and `local = clock.is_none()`. On success: the source calls
`self.save_clock(clock.unwrap(), ..)` WITHOUT awaiting the returned future,
so the SaveClock message is never sent and the clock is left unchanged — the
model therefore performs no clock write here. Then one gossip round runs with
fan-out `MAX_PER_ROUND` and ttl defaulting to `TTL`, whose body carries the
clock loaded after the save. On save failure the handler replies with an error
and sends nothing. -/
def transmitHandler (db : DB) (neighbors : List PeerInfo) (data : ClipboardEntry)
    (ttl : Option Nat) (clock : Option Clock) (fresh_key : String) : TransmitResult :=
  let r := copyData db data fresh_key clock.isNone
  match r.1 with
  | Except.ok _ =>
    let t := ttl.getD TTL
    let body : Gossip := ⟨load_clock r.2, data, t⟩
    ⟨r.2, true, (gossipTargets neighbors MAX_PER_ROUND).map (fun p => (p, body))⟩
  | Except.error _ => ⟨r.2, false, []⟩

/-- HTTP status of the `/gossip` handler: 200 OK or 500 Internal Server Error. -/
inductive Status where
  | ok
  | internalServerError
  deriving DecidableEq, Repr

/-- Mirrors the `gossip` handler of http_server.rs (lines 72-120). It loads the
current clock; only when `is_outdated(local, carried) && ttl > 0` does it issue
a `Transmit` with the entry, `ttl - 1` and the carried clock (the clock field
of the Transmit message is modelled from the spec, §4.2 step 2, because the
checked-in http_server.rs constructs `Transmit` without it); otherwise it does
nothing and replies 200 OK. A failed Transmit yields 500. -/
def gossipHandler (db : DB) (neighbors : List PeerInfo) (payload : Gossip)
    (fresh_key : String) : DB × Status × List GossipMsg :=
  let data := load_clock db
  if is_outdated data payload.clock && decide (0 < payload.ttl) then
    let r := transmitHandler db neighbors payload.entry (some (payload.ttl - 1))
      (some payload.clock) fresh_key
    (r.db, if r.ok then Status.ok else Status.internalServerError, r.msgs)
  else
    (db, Status.ok, [])

/-! Sequences of Store operations, for the counter invariants. -/

/-- A store operation, as the claims quantify over sequences: a clipboard write
(`CopyData`, local or replicated — local writes come from `Transmit` with no
carried clock, replicated ones from gossip or anti-entropy) or a clock store
(`SaveClock`). -/
inductive StoreOp where
  | write (entry : ClipboardEntry) (key : String) (isLocal : Bool)
  | saveClock (m : Clock)
  deriving DecidableEq, Repr

def runOp (db : DB) : StoreOp → DB
  | StoreOp.write e k l => (copyData db e k l).2
  | StoreOp.saveClock m => sync_clock db m

def runOps (db : DB) (ops : List StoreOp) : DB :=
  ops.foldl runOp db

/-- Number of locally originated write attempts in a sequence. -/
def countLocalAttempts : List StoreOp → Nat
  | [] => 0
  | StoreOp.write _ _ true :: rest => countLocalAttempts rest + 1
  | _ :: rest => countLocalAttempts rest

/-- Number of locally originated writes that succeed when the sequence runs
from `db`: a write succeeds exactly when its key is not yet in the log. -/
def countLocalSuccesses (db : DB) : List StoreOp → Nat
  | [] => 0
  | op :: rest =>
    (match op with
     | StoreOp.write _ k true => if isDup db k then 0 else 1
     | _ => 0) + countLocalSuccesses (runOp db op) rest

/-- The clipboard row an entry is stored as under a given key. -/
def entryRow (k : String) : ClipboardEntry → ClipRow
  | ClipboardEntry.Text t => textRow k t
  | ClipboardEntry.Image i => imageRow k i

/-- Pointwise max-merge of two optional counters, the value the spec assigns
to a merged clock entry. -/
def maxMerge : Option Nat → Option Nat → Option Nat
  | a, none => a
  | none, some b => some b
  | some a, some b => some (max a b)

/-! Helper lemmas. -/

theorem selfRows_mapUpd (rows : List ClockRow) (k : String) (v : Nat) :
    selfRows (rows.map (fun r => if r.key == k && !r.self then { r with time := v } else r))
      = selfRows rows := by
  induction rows with
  | nil => rfl
  | cons r rs ih =>
    simp only [List.map_cons]
    by_cases hk : r.key = k <;> cases hs : r.self <;>
      simp [selfRows, List.filter_cons, hk, hs] at ih ⊢ <;> exact ih

theorem selfRows_upsertClock (rows : List ClockRow) (k : String) (v : Nat) :
    selfRows (upsertClock rows k v) = selfRows rows := by
  unfold upsertClock
  by_cases hany : rows.any (fun r => r.key == k)
  · simp only [hany, if_true]
    exact selfRows_mapUpd rows k v
  · simp only [hany, if_false]
    simp [selfRows, List.filter_append]

theorem selfRows_syncFold (m : Clock) (rows : List ClockRow) :
    selfRows (m.foldl (fun rs p => upsertClock rs p.1 p.2) rows) = selfRows rows := by
  induction m generalizing rows with
  | nil => rfl
  | cons p rest ih => rw [List.foldl_cons, ih, selfRows_upsertClock]

theorem selfRows_sync_clock (db : DB) (m : Clock) :
    selfRows (sync_clock db m).clock = selfRows db.clock := by
  unfold sync_clock
  by_cases h : m.isEmpty
  · simp [h]
  · simp only [h, if_false]
    exact selfRows_syncFold m db.clock

theorem selfRows_incRows (rows : List ClockRow) :
    selfRows (incRows rows)
      = (selfRows rows).map (fun r => { r with time := r.time + 1 }) := by
  induction rows with
  | nil => rfl
  | cons r rs ih =>
    cases hs : r.self <;>
      simp only [incRows, List.map_cons, selfRows, List.filter_cons, hs] at ih ⊢ <;>
      simp [selfRows, hs] at ih ⊢ <;> simp [ih]

theorem selfCounter_inc (db : DB) :
    selfCounter (inc_self_counter db) = selfCounter db + selfRowCount db := by
  unfold selfCounter inc_self_counter selfRowCount
  simp only [selfRows_incRows]
  generalize selfRows db.clock = l
  induction l with
  | nil => rfl
  | cons r rs ih =>
    simp only [List.map_cons, List.sum_cons, List.length_cons]
    rw [ih]
    omega

theorem selfRowCount_inc (db : DB) :
    selfRowCount (inc_self_counter db) = selfRowCount db := by
  unfold selfRowCount inc_self_counter
  simp [selfRows_incRows]

theorem clock_save_text (db : DB) (t k : String) (l : Bool) :
    ((save_text db t k l).2).clock = (if l then inc_self_counter db else db).clock := by
  unfold save_text
  by_cases h : isDup (if l then inc_self_counter db else db) k <;> simp [h]

theorem clock_save_image (db : DB) (i : SerializableImage) (k : String) (l : Bool) :
    ((save_image db i k l).2).clock = (if l then inc_self_counter db else db).clock := by
  unfold save_image
  by_cases h : isDup (if l then inc_self_counter db else db) k <;> simp [h]

theorem clock_copyData (db : DB) (e : ClipboardEntry) (k : String) (l : Bool) :
    ((copyData db e k l).2).clock = (if l then inc_self_counter db else db).clock := by
  cases e with
  | Image i => exact clock_save_image db i k l
  | Text t => exact clock_save_text db t k l

theorem lookupClock_eq_none_of_not_mem (m : Clock) (k : String)
    (h : k ∉ m.map Prod.fst) : lookupClock m k = none := by
  induction m with
  | nil => rfl
  | cons p rest ih =>
    simp only [List.map_cons, List.mem_cons, not_or] at h
    have hb : (p.1 == k) = false := by
      cases hbb : (p.1 == k)
      · rfl
      · have hp1 : p.1 = k := by simpa using hbb
        exact absurd hp1.symm h.1
    simp [lookupClock, hb, ih h.2]

theorem lookupClock_eq_none_of_any_false (m : Clock) (k : String)
    (h : m.any (fun p => p.1 == k) = false) : lookupClock m k = none := by
  induction m with
  | nil => rfl
  | cons p rest ih =>
    cases hb : (p.1 == k)
    · simp only [lookupClock, hb, Bool.false_eq_true, if_false]
      exact ih (by simpa [hb] using h)
    · simp [hb] at h

theorem lookupClock_append_single (m : Clock) (k1 k : String) (v : Nat) :
    lookupClock (m ++ [(k1, v)]) k
      = match lookupClock m k with
        | some x => some x
        | none => lookupClock [(k1, v)] k := by
  induction m with
  | nil => simp [lookupClock]
  | cons p rest ih =>
    cases hb : (p.1 == k) <;> simp [lookupClock, hb, ih]

theorem lookupClock_mapUpd_self (m : Clock) (k : String) (v : Nat)
    (hany : m.any (fun p => p.1 == k) = true) :
    lookupClock (m.map (fun p => if p.1 == k then (k, v) else p)) k = some v := by
  induction m with
  | nil => simp at hany
  | cons p rest ih =>
    cases hb : (p.1 == k)
    · have hrest : rest.any (fun p => p.1 == k) = true := by simpa [hb] using hany
      simp only [List.map_cons, lookupClock, hb, Bool.false_eq_true, if_false]
      exact ih hrest
    · simp [lookupClock, hb]

theorem lookupClock_mapUpd_other (m : Clock) (k1 k : String) (v : Nat)
    (hne : (k1 == k) = false) :
    lookupClock (m.map (fun p => if p.1 == k1 then (k1, v) else p)) k
      = lookupClock m k := by
  induction m with
  | nil => rfl
  | cons p rest ih =>
    cases hb : (p.1 == k1)
    · simp only [List.map_cons, lookupClock, hb, Bool.false_eq_true, if_false]
      rw [ih]
    · have hp1 : p.1 = k1 := by simpa using hb
      have hpk : (p.1 == k) = false := by rw [hp1]; exact hne
      simp only [List.map_cons, lookupClock, hb, if_true, hne, hpk,
        Bool.false_eq_true, if_false]
      exact ih

theorem lookupClock_insertClock_self (m : Clock) (k : String) (v : Nat) :
    lookupClock (insertClock m k v) k = some v := by
  unfold insertClock
  cases hany : m.any (fun p => p.1 == k)
  · simp only [Bool.false_eq_true, if_false]
    rw [lookupClock_append_single, lookupClock_eq_none_of_any_false m k hany]
    simp [lookupClock]
  · simp only [if_true]
    exact lookupClock_mapUpd_self m k v hany

theorem lookupClock_insertClock_other (m : Clock) (k1 k : String) (v : Nat)
    (hne : (k1 == k) = false) :
    lookupClock (insertClock m k1 v) k = lookupClock m k := by
  unfold insertClock
  cases hany : m.any (fun p => p.1 == k1)
  · simp only [Bool.false_eq_true, if_false]
    rw [lookupClock_append_single]
    cases hl : lookupClock m k <;> simp [lookupClock, hne]
  · simp only [if_true]
    exact lookupClock_mapUpd_other m k1 k v hne

theorem lookupClock_mergeStep_other (u : Clock) (p : String × Nat) (k : String)
    (hbk : (p.1 == k) = false) : lookupClock (mergeStep u p) k = lookupClock u k := by
  unfold mergeStep
  cases hl : lookupClock u p.1 <;>
    simp [hl, lookupClock_insertClock_other _ _ _ _ hbk]

theorem merge_clocks_lookup :
    ∀ (incoming updating : Clock), (incoming.map Prod.fst).Nodup → ∀ k : String,
      lookupClock (merge_clocks updating incoming) k
        = maxMerge (lookupClock updating k) (lookupClock incoming k) := by
  intro incoming
  induction incoming with
  | nil =>
    intro u _ k
    cases hl : lookupClock u k <;> simp [merge_clocks, lookupClock, maxMerge, hl]
  | cons p rest ih =>
    intro u h k
    simp only [List.map_cons, List.nodup_cons] at h
    obtain ⟨hnotin, hnd⟩ := h
    have step : merge_clocks u (p :: rest) = merge_clocks (mergeStep u p) rest := rfl
    rw [step, ih (mergeStep u p) hnd k]
    cases hbk : (p.1 == k)
    · rw [lookupClock_mergeStep_other u p k hbk]
      simp [lookupClock, hbk]
    · have hp1 : p.1 = k := by simpa using hbk
      have hrest : lookupClock rest k = none := by
        apply lookupClock_eq_none_of_not_mem
        rw [← hp1]; exact hnotin
      have hcons : lookupClock (p :: rest) k = some p.2 := by
        simp [lookupClock, hbk]
      rw [hrest, hcons]
      unfold mergeStep
      rw [hp1]
      cases hl : lookupClock u k
      · simp [hl, lookupClock_insertClock_self, maxMerge]
      · simp [hl, lookupClock_insertClock_self, maxMerge]
        split <;> omega

theorem isDup_inc (db : DB) (k : String) :
    isDup (inc_self_counter db) k = isDup db k := rfl

theorem clipboard_inc (db : DB) :
    (inc_self_counter db).clipboard = db.clipboard := rfl

theorem clock_save_text_local (db : DB) (t k : String) :
    ((save_text db t k true).2).clock = (inc_self_counter db).clock := by
  simpa using clock_save_text db t k true

theorem runOp_write_repl_clock (db : DB) (e : ClipboardEntry) (k : String) :
    (runOp db (StoreOp.write e k false)).clock = db.clock := by
  simpa using clock_copyData db e k false

theorem runOp_write_local_clock (db : DB) (e : ClipboardEntry) (k : String) :
    (runOp db (StoreOp.write e k true)).clock = (inc_self_counter db).clock := by
  simpa using clock_copyData db e k true

/-! Claim theorems. -/

/-- Counterexample for C7. The claim states that a host present in the remote
clock with counter 0 but absent from the local clock does not make the local
clock outdated; in the code the `None => true` arm of `is_outdated` makes it
outdated regardless of the incoming counter value. With local clock empty and
remote clock containing only (A, 0), `is_outdated` returns true while the
predicate written from the words of the spec returns false. -/
theorem c7_counterexample :
    is_outdated [] [("A", 0)] = true ∧ spec_is_outdated [] [("A", 0)] = false := by
  decide

/-- C7, amended: `is_outdated(local, remote)` returns true iff some host of the
remote clock is either absent from the local clock (with any counter value,
including 0) or carries a counter strictly larger than the local one. -/
theorem c7_is_outdated_characterization (clock incoming : Clock) :
    is_outdated clock incoming = true ↔
      ∃ p ∈ incoming, lookupClock clock p.1 = none ∨
        ∃ v, lookupClock clock p.1 = some v ∧ v < p.2 := by
  unfold is_outdated
  rw [List.any_eq_true]
  constructor
  · rintro ⟨p, hp, hb⟩
    refine ⟨p, hp, ?_⟩
    cases hl : lookupClock clock p.1 with
    | none => exact Or.inl rfl
    | some v =>
      rw [hl] at hb
      exact Or.inr ⟨v, rfl, by simpa using hb⟩
  · rintro ⟨p, hp, h⟩
    refine ⟨p, hp, ?_⟩
    rcases h with hl | ⟨v, hl, hv⟩
    · simp [hl]
    · simp [hl, hv]

/-- C8: the SaveClock store operation (`sync_clock`) never modifies any clock
row marked self — for every incoming map, including maps that name the self
host, the sublist of self rows (hence the self counter value) is exactly the
same before and after the call. The upsert inserts new rows with self = FALSE
and its conflict update is guarded by WHERE self = FALSE. -/
theorem c8_sync_clock_preserves_self_rows (db : DB) (clock_map : Clock) :
    selfRows (sync_clock db clock_map).clock = selfRows db.clock :=
  selfRows_sync_clock db clock_map

/-- Counterexample for C3. The claim states that the SaveClock store operation
sets each non-self counter to the max of the current and the incoming value and
never decreases a counter. In db.rs `sync_clock` the conflict update is
`SET time = excluded.time`, a plain overwrite: with a stored non-self row
(A, 3) and incoming map {A: 2} the stored counter drops to 2, not max 3 2 = 3. -/
theorem c3_counterexample :
    (sync_clock ⟨[], [⟨"A", false, 3⟩]⟩ [("A", 2)]).clock = [⟨"A", false, 2⟩]
    ∧ max 3 2 = 3 := by
  decide

/-- C3, amended: `sync_clock` itself overwrites non-self counters with the
incoming values, and the max is instead computed by its caller: the clock
loop of `Node::update_values` (`merge_clocks`) maps every host to the
pointwise max of the existing and the incoming counter, so the clock saved
along the anti-entropy path never decreases any counter. -/
theorem c3_merge_clocks_max (updating incoming : Clock)
    (h : (incoming.map Prod.fst).Nodup) (k : String) :
    lookupClock (merge_clocks updating incoming) k
      = maxMerge (lookupClock updating k) (lookupClock incoming k) :=
  merge_clocks_lookup incoming updating h k

/-- Witness for C3: merging incoming {A:2, B:4, C:7} into {A:3, B:1} yields
max 3 2 = 3 at host A. -/
theorem c3_merge_clocks_max_witness :
    lookupClock (merge_clocks [("A", 3), ("B", 1)] [("A", 2), ("B", 4), ("C", 7)]) "A"
      = maxMerge (some 3) (some 2) := by
  have h := c3_merge_clocks_max [("A", 3), ("B", 1)] [("A", 2), ("B", 4), ("C", 7)]
    (by decide) "A"
  simpa using h

/-- C9 is a code bug: with `MAX_PER_ROUND = 5` and a refreshed list of six
online peers, the gossip send loop of `Node::gossip` messages all six of them,
because `sent` is incremented and tested (`sent > neighbor_count`) only after
the send, so the sixth send has already happened when the loop breaks. The
claim (at most F = 5 peers per round) is what the constant's name and the
limiting comment in the source intend. -/
theorem c9_six_peers_messaged :
    MAX_PER_ROUND = 5 ∧
    (gossipTargets
      [⟨"p1", ["i1"], true⟩, ⟨"p2", ["i2"], true⟩, ⟨"p3", ["i3"], true⟩,
       ⟨"p4", ["i4"], true⟩, ⟨"p5", ["i5"], true⟩, ⟨"p6", ["i6"], true⟩]
      MAX_PER_ROUND).length = 6 := by
  decide

/-- Counterexample for C2. The claim states that a second replicated insert
under an already-present key is treated as success (DuplicateKey is not an
error). The INSERT of `save_text` carries no ON CONFLICT clause, so after a
successful replicated insert under key k, a second insert under k returns a
constraint-violation storage error, not a success. -/
theorem c2_counterexample :
    (save_text ⟨[], []⟩ "e" "k" false).1 = Except.ok 1
    ∧ (save_text (save_text ⟨[], []⟩ "e" "k" false).2 "e2" "k" false).1
        = Except.error RusqliteError.constraintViolation := by
  constructor <;> rfl

/-- C2, amended: a replicated insert (`save_text` with local = false) under a
key that is already present returns a duplicate-key storage error rather than
success; the log still contains exactly one row with that key afterwards, and
no clock counter is touched. -/
theorem c2_replicated_duplicate_insert (db : DB) (t k : String)
    (h : (db.clipboard.filter (fun r => r.key == k)).length = 1) :
    (save_text db t k false).1 = Except.error RusqliteError.constraintViolation
    ∧ (((save_text db t k false).2).clipboard.filter (fun r => r.key == k)).length = 1
    ∧ ((save_text db t k false).2).clock = db.clock := by
  have hd : isDup db k = true := by
    have hne : db.clipboard.filter (fun r => r.key == k) ≠ [] := by
      intro hnil
      rw [hnil] at h
      simp at h
    obtain ⟨x, hx⟩ := List.exists_mem_of_ne_nil _ hne
    unfold isDup
    rw [List.any_eq_true]
    exact ⟨x, (List.mem_filter.mp hx).1, (List.mem_filter.mp hx).2⟩
  refine ⟨?_, ?_, ?_⟩ <;> simp [save_text, hd, h]

/-- Witness for C2 at a store holding one row under key k. -/
theorem c2_replicated_duplicate_insert_witness :
    (save_text ⟨[textRow "k" "e"], []⟩ "e2" "k" false).1
        = Except.error RusqliteError.constraintViolation
    ∧ (((save_text ⟨[textRow "k" "e"], []⟩ "e2" "k" false).2).clipboard.filter
        (fun r => r.key == "k")).length = 1
    ∧ ((save_text ⟨[textRow "k" "e"], []⟩ "e2" "k" false).2).clock = [] :=
  c2_replicated_duplicate_insert ⟨[textRow "k" "e"], []⟩ "e2" "k" (by decide)

/-- Counterexample for C5. The claim states that when a local write fails the
self counter is unchanged (single transaction). In `save_text` the self
counter is incremented by a separate statement before the INSERT and there is
no transaction: on a store whose log already holds key k and whose self
counter is 0, a local write under k fails with a storage error, the log gains
no entry, yet the self counter ends at 1. -/
theorem c5_counterexample :
    (save_text ⟨[textRow "k" "a"], [⟨"H", true, 0⟩]⟩ "b" "k" true).1
        = Except.error RusqliteError.constraintViolation
    ∧ ((save_text ⟨[textRow "k" "a"], [⟨"H", true, 0⟩]⟩ "b" "k" true).2).clipboard
        = [textRow "k" "a"]
    ∧ selfCounter (save_text ⟨[textRow "k" "a"], [⟨"H", true, 0⟩]⟩ "b" "k" true).2 = 1 := by
  refine ⟨rfl, rfl, ?_⟩
  decide

/-- C5, amended: a local write (`save_text` with local = true) on a store with
one self row always increments the self counter by exactly 1, whether or not
the log insert succeeds; when the insert fails the log is unchanged but the
counter increment persists (the two statements are not one transaction), and
when it succeeds exactly one entry is appended. -/
theorem c5_write_local (db : DB) (t k : String) (h : selfRowCount db = 1) :
    selfCounter (save_text db t k true).2 = selfCounter db + 1
    ∧ (isDup db k = true →
        (save_text db t k true).1 = Except.error RusqliteError.constraintViolation
        ∧ ((save_text db t k true).2).clipboard = db.clipboard)
    ∧ (isDup db k = false →
        (save_text db t k true).1 = Except.ok 1
        ∧ ((save_text db t k true).2).clipboard = db.clipboard ++ [textRow k t]) := by
  refine ⟨?_, ?_, ?_⟩
  · calc selfCounter (save_text db t k true).2
        = selfCounter (inc_self_counter db) := by
          unfold selfCounter
          rw [clock_save_text_local db t k]
      _ = selfCounter db + selfRowCount db := selfCounter_inc db
      _ = selfCounter db + 1 := by rw [h]
  · intro hd
    constructor <;> simp [save_text, isDup_inc, clipboard_inc, hd]
  · intro hd
    constructor <;> simp [save_text, isDup_inc, clipboard_inc, hd]

/-- Witness for C5 on a fresh store with self row (H, 0): the successful write
branch applies, the counter becomes 1 and the entry is appended. -/
theorem c5_write_local_witness :
    selfCounter (save_text ⟨[], [⟨"H", true, 0⟩]⟩ "a" "k" true).2 = 0 + 1
    ∧ (save_text ⟨[], [⟨"H", true, 0⟩]⟩ "a" "k" true).1 = Except.ok 1
    ∧ ((save_text ⟨[], [⟨"H", true, 0⟩]⟩ "a" "k" true).2).clipboard
        = [] ++ [textRow "k" "a"] := by
  have h := c5_write_local ⟨[], [⟨"H", true, 0⟩]⟩ "a" "k" (by decide)
  have h3 := h.2.2 (by decide)
  exact ⟨by simpa using h.1, h3.1, by simpa using h3.2⟩

/-- Counterexample for C4. The claim states that after any sequence of store
operations the self counter equals the number of successful locally originated
writes. Because `save_text` increments the counter before the insert with no
transaction, a failing local write still increments it: starting from a store
with self row (H, 0), a local write under key k followed by a second local
write under the same key (only the first succeeds) leaves the counter at 2
while only 1 local write succeeded. -/
theorem c4_counterexample :
    selfCounter (runOps ⟨[], [⟨"H", true, 0⟩]⟩
        [StoreOp.write (ClipboardEntry.Text "a") "k" true,
         StoreOp.write (ClipboardEntry.Text "b") "k" true]) = 2
    ∧ countLocalSuccesses ⟨[], [⟨"H", true, 0⟩]⟩
        [StoreOp.write (ClipboardEntry.Text "a") "k" true,
         StoreOp.write (ClipboardEntry.Text "b") "k" true] = 1 := by
  decide

/-- C4, amended: on a store with one self row, after any sequence of store
operations the self counter equals its initial value plus the number of local
write ATTEMPTS (successful or not) in the sequence; replicated inserts and
SaveClock calls never increment it. It can therefore exceed the number of
successful local writes exactly when some local write fails. -/
theorem c4_self_counter_attempts (db : DB) (ops : List StoreOp)
    (h : selfRowCount db = 1) :
    selfCounter (runOps db ops) = selfCounter db + countLocalAttempts ops := by
  induction ops generalizing db with
  | nil => simp [runOps, countLocalAttempts]
  | cons op rest ih =>
    have hstep : runOps db (op :: rest) = runOps (runOp db op) rest := rfl
    rw [hstep]
    cases op with
    | write e k l =>
      cases l
      · have hclock : (runOp db (StoreOp.write e k false)).clock = db.clock :=
          runOp_write_repl_clock db e k
        have hcount : selfRowCount (runOp db (StoreOp.write e k false)) = 1 := by
          unfold selfRowCount
          rw [hclock]
          exact h
        have hcounter : selfCounter (runOp db (StoreOp.write e k false)) = selfCounter db := by
          unfold selfCounter
          rw [hclock]
        rw [ih _ hcount, hcounter]
        simp [countLocalAttempts]
      · have hclock : (runOp db (StoreOp.write e k true)).clock = (inc_self_counter db).clock :=
          runOp_write_local_clock db e k
        have hcount : selfRowCount (runOp db (StoreOp.write e k true)) = 1 := by
          unfold selfRowCount
          rw [hclock]
          have hpc := selfRowCount_inc db
          unfold selfRowCount at hpc
          rw [hpc]
          exact h
        have hcounter : selfCounter (runOp db (StoreOp.write e k true))
            = selfCounter db + 1 := by
          unfold selfCounter
          rw [hclock]
          have hic := selfCounter_inc db
          unfold selfCounter at hic
          rw [hic, h]
        rw [ih _ hcount, hcounter]
        simp [countLocalAttempts]
        omega
    | saveClock m =>
      have hself : selfRows (runOp db (StoreOp.saveClock m)).clock = selfRows db.clock :=
        selfRows_sync_clock db m
      have hcount : selfRowCount (runOp db (StoreOp.saveClock m)) = 1 := by
        unfold selfRowCount
        rw [hself]
        exact h
      have hcounter : selfCounter (runOp db (StoreOp.saveClock m)) = selfCounter db := by
        unfold selfCounter
        rw [hself]
      rw [ih _ hcount, hcounter]
      simp [countLocalAttempts]

/-- Witness for C4: one local write, one replicated write and one SaveClock on
a fresh store with self row (H, 0) leave the self counter at exactly 1. -/
theorem c4_self_counter_attempts_witness :
    selfCounter (runOps ⟨[], [⟨"H", true, 0⟩]⟩
        [StoreOp.write (ClipboardEntry.Text "a") "k1" true,
         StoreOp.write (ClipboardEntry.Text "b") "k2" false,
         StoreOp.saveClock [("A", 7)]]) = 0 +
      countLocalAttempts
        [StoreOp.write (ClipboardEntry.Text "a") "k1" true,
         StoreOp.write (ClipboardEntry.Text "b") "k2" false,
         StoreOp.saveClock [("A", 7)]] := by
  have h := c4_self_counter_attempts ⟨[], [⟨"H", true, 0⟩]⟩
    [StoreOp.write (ClipboardEntry.Text "a") "k1" true,
     StoreOp.write (ClipboardEntry.Text "b") "k2" false,
     StoreOp.saveClock [("A", 7)]] (by decide)
  simpa using h

/-- Counterexample for C1. The claim states that every received gossip message
has its entry written into the store regardless of ttl, and in particular that
a message with ttl = 0 still has its entry inserted. In the handler the insert
only happens inside the Transmit issued under the guard
`is_outdated && ttl > 0`, so a ttl = 0 message is dropped whole: on a receiver
with an empty log, the resulting state is unchanged and the clipboard stays
empty, with 200 OK and zero outbound messages. -/
theorem c1_counterexample :
    gossipHandler ⟨[], [⟨"H2", true, 0⟩]⟩ []
        ⟨[("H1", 1)], ClipboardEntry.Text "x", 0⟩ "K"
      = (⟨[], [⟨"H2", true, 0⟩]⟩, Status.ok, [])
    ∧ ((gossipHandler ⟨[], [⟨"H2", true, 0⟩]⟩ []
        ⟨[("H1", 1)], ClipboardEntry.Text "x", 0⟩ "K").1).clipboard = [] := by
  constructor <;> rfl

/-- C1, amended: the receiver writes the carried entry via a replicated insert
(no self counter change) only when ttl > 0 AND its local clock is outdated
with respect to the carried clock; under that guard, with a fresh key, the
entry row is appended to the log and the clock table is untouched. A ttl = 0
message is not inserted at all (see the counterexample); it does also cause
zero outbound gossip messages. -/
theorem c1_gossip_insert (db : DB) (neighbors : List PeerInfo) (c : Clock)
    (e : ClipboardEntry) (ttl : Nat) (k : String) (h1 : 0 < ttl)
    (h2 : is_outdated (load_clock db) c = true) (h3 : isDup db k = false) :
    ((gossipHandler db neighbors ⟨c, e, ttl⟩ k).1).clipboard
        = db.clipboard ++ [entryRow k e]
    ∧ ((gossipHandler db neighbors ⟨c, e, ttl⟩ k).1).clock = db.clock := by
  have httl : decide (0 < ttl) = true := decide_eq_true h1
  cases e <;>
    simp [gossipHandler, h2, httl, transmitHandler, copyData, save_text, save_image,
      h3, entryRow, textRow, imageRow]

/-- Witness for C1 on a receiver with self row (H2, 0), carried clock {H1: 1},
entry Text "x", ttl = 1 and fresh key K. -/
theorem c1_gossip_insert_witness :
    ((gossipHandler ⟨[], [⟨"H2", true, 0⟩]⟩ []
        ⟨[("H1", 1)], ClipboardEntry.Text "x", 1⟩ "K").1).clipboard
      = [] ++ [entryRow "K" (ClipboardEntry.Text "x")]
    ∧ ((gossipHandler ⟨[], [⟨"H2", true, 0⟩]⟩ []
        ⟨[("H1", 1)], ClipboardEntry.Text "x", 1⟩ "K").1).clock
      = [⟨"H2", true, 0⟩] :=
  c1_gossip_insert ⟨[], [⟨"H2", true, 0⟩]⟩ [] [("H1", 1)]
    (ClipboardEntry.Text "x") 1 "K" (by decide) (by decide) (by decide)

/-- C6 is a code bug: the Transmit handler creates the `save_clock` future for
the carried clock but never awaits it, so no SaveClock message is ever sent
and the receiver's clock is not merged. On a receiver whose clock is
{H2 (self): 0}, a gossip message carrying clock {H1: 1} with ttl = 1 is
accepted (outdated, ttl > 0) and its entry is inserted, yet the clock table is
unchanged afterwards and H1 does not appear in the receiver's clock, so
`GET /clock` cannot report {H1: 1} as the claim requires. -/
theorem c6_clock_not_merged :
    ((gossipHandler ⟨[], [⟨"H2", true, 0⟩]⟩ []
        ⟨[("H1", 1)], ClipboardEntry.Text "x", 1⟩ "K").1).clipboard
      = [textRow "K" "x"]
    ∧ ((gossipHandler ⟨[], [⟨"H2", true, 0⟩]⟩ []
        ⟨[("H1", 1)], ClipboardEntry.Text "x", 1⟩ "K").1).clock
      = [⟨"H2", true, 0⟩]
    ∧ lookupClock (load_clock ((gossipHandler ⟨[], [⟨"H2", true, 0⟩]⟩ []
        ⟨[("H1", 1)], ClipboardEntry.Text "x", 1⟩ "K").1)) "H1" = none := by
  refine ⟨rfl, rfl, rfl⟩

/-- C10: when a parsed gossip payload is not acted on — the local clock is not
outdated with respect to the carried clock, or ttl = 0 — the handler replies
200 OK, leaves the database unchanged and issues no outbound messages, so the
sender cannot distinguish this from an accepted message. -/
theorem c10_ignored_gossip_replies_ok (db : DB) (neighbors : List PeerInfo)
    (g : Gossip) (k : String)
    (h : is_outdated (load_clock db) g.clock = false ∨ g.ttl = 0) :
    gossipHandler db neighbors g k = (db, Status.ok, []) := by
  unfold gossipHandler
  rcases h with h | h <;> simp [h]

/-- Witness for C10 on a payload with ttl = 0. -/
theorem c10_ignored_gossip_replies_ok_witness :
    gossipHandler ⟨[], [⟨"H", true, 3⟩]⟩ []
        ⟨[("H1", 2)], ClipboardEntry.Text "y", 0⟩ "K"
      = (⟨[], [⟨"H", true, 3⟩]⟩, Status.ok, []) :=
  c10_ignored_gossip_replies_ok ⟨[], [⟨"H", true, 3⟩]⟩ []
    ⟨[("H1", 2)], ClipboardEntry.Text "y", 0⟩ "K" (Or.inr rfl)

end Slate
